import Mathlib

/-!
Verification of the Authorization and Permission Engine of the l2l-backend
repository against its natural-language specification.

The definitions below are a shallow embedding of the TypeScript source:
JavaScript numbers are modelled as rationals, fallible external calls
(principal store, audit sink) as explicit outcome values, and the
middleware and route handlers as pure functions of their inputs.
-/

namespace L2L

/-- A capability value inside a featurePermissions category map: the
catalog holds boolean capabilities and numeric limits. -/
inductive PermValue where
  | b (v : Bool)
  | n (v : ℚ)
deriving DecidableEq

/-- Truthiness of a granted capability value, following the specification
(section 4.2 rule 2): a boolean capability allows when true, a numeric
capability allows when it is a positive limit. -/
def permTruthy : PermValue → Bool
  | .b v => v
  | .n q => decide (0 < q)

/-- Discount authorization record of a principal (specification section 3). -/
structure DiscountAuthorization where
  canApplyProductDiscounts : Bool
  canApplyBillDiscounts : Bool
  maxDiscountPercent : ℚ
  maxDiscountAmount : ℚ
  unlimitedDiscounts : Bool
deriving DecidableEq

/-- The authenticated principal as the engine reads it: a role string, the
explicit per-category capability grants, the discount authorization, and
the legacy canPerformAction method of the user model (modelled as an
opaque boolean function, consulted only by the legacy resource/action
branch of the middleware). -/
structure User where
  role : String
  featurePermissions : List (String × List (String × PermValue))
  discountAuthorization : DiscountAuthorization
  canPerformAction : String → String → Bool

/-- Looks up the explicit grant featurePermissions[category][capability]
and reports whether it is present and truthy. -/
def capTruthy (fps : List (String × List (String × PermValue)))
    (category capability : String) : Bool :=
  match (List.lookup category fps).bind (fun cm => List.lookup capability cm) with
  | some v => permTruthy v
  | none => false

namespace PermissionService

/-- Modelled from the spec: PermissionService.hasPermission is not under
src/ (src/lib/permissions holds only its types; the middleware, guards
and route handlers only call it). Section 4.2: (1) role super_admin
allows unconditionally; (2) otherwise an explicit truthy grant in
featurePermissions[category][capability] allows; (3) otherwise deny. -/
def hasPermission (user : User) (category capability : String) : Bool :=
  user.role == "super_admin" || capTruthy user.featurePermissions category capability

/-- The two discount kinds accepted by checkDiscountPermission. -/
inductive DiscountKind where
  | product
  | bill
deriving DecidableEq

/-- Decision value returned by checkDiscountPermission, as in
src/lib/permissions/types.ts (PermissionCheck). -/
structure PermissionCheck where
  allowed : Bool
  reason : Option String := none
deriving DecidableEq

/-- Denial reason identifying the percent bound. -/
def percentBoundReason : String := "discount percent exceeds maximum allowed"

/-- Denial reason identifying the amount bound. -/
def amountBoundReason : String := "discount amount exceeds maximum allowed"

/-- Denial reason for a missing kind-specific gate. -/
def typeNotPermittedReason : String := "discount type not permitted"

/-- Modelled from the spec: PermissionService.checkDiscountPermission is
not under src/ (only its delegating caller in permissionMiddleware.ts
is). Section 4.2: super_admin and unlimitedDiscounts allow regardless of
magnitude; zero or negative requested values are always allowed; else the
kind-specific boolean gate must hold, and requestedPercent must not
exceed maxDiscountPercent nor requestedAmount exceed maxDiscountAmount,
each violation denying with a reason identifying the exceeded bound. -/
def checkDiscountPermission (user : User) (requestedPercent requestedAmount : ℚ)
    (kind : DiscountKind) : PermissionCheck :=
  let da := user.discountAuthorization
  if user.role == "super_admin" || da.unlimitedDiscounts then
    { allowed := true }
  else if requestedPercent ≤ 0 ∧ requestedAmount ≤ 0 then
    { allowed := true }
  else
    let gate := match kind with
      | .product => da.canApplyProductDiscounts
      | .bill => da.canApplyBillDiscounts
    if !gate then
      { allowed := false, reason := some typeNotPermittedReason }
    else if da.maxDiscountPercent < requestedPercent then
      { allowed := false, reason := some percentBoundReason }
    else if da.maxDiscountAmount < requestedAmount then
      { allowed := false, reason := some amountBoundReason }
    else
      { allowed := true }

end PermissionService

/-- Character-list test used to implement the JavaScript startsWith: the
first list is the candidate start of the second. -/
def isCharPrefix : List Char → List Char → Bool
  | [], _ => true
  | _ :: _, [] => false
  | a :: as, b :: bs => a == b && isCharPrefix as bs

/-- JavaScript String.startsWith, implemented structurally on the
character lists so that it evaluates inside the kernel. -/
def strStartsWith (s pre : String) : Bool :=
  isCharPrefix pre.toList s.toList

/-- Splits a character list at every occurrence of the separator,
keeping empty segments, like the JavaScript String.split with a
one-character separator. The result is never empty. -/
def splitChars (sep : Char) : List Char → List (List Char)
  | [] => [[]]
  | c :: rest =>
    match splitChars sep rest with
    | seg :: segs => if c == sep then [] :: seg :: segs else (c :: seg) :: segs
    | [] => [[c]]

/-- JavaScript String.split with a one-character separator. -/
def jsSplit (s : String) (sep : Char) : List String :=
  (splitChars sep s.toList).map fun cs => ⟨cs⟩

namespace PermissionMiddleware

/-- PermissionConfig from src/middlewares/permissionMiddleware.ts: all
fields are optional; customCheck is an opaque predicate on the resolved
user (the request argument is irrelevant to the claims and elided). -/
structure PermissionConfig where
  resource : Option String := none
  action : Option String := none
  category : Option String := none
  permission : Option String := none
  requiresRole : Option (List String) := none
  customCheck : Option (User → Bool) := none

/-- Recursive form of the index loop in matchesPattern: position i is
accepted when the pattern segment equals the path segment or starts with
the placeholder opening bracket. Called only on lists of equal length. -/
def matchSegs : List String → List String → Bool
  | patSeg :: ps, pathSeg :: qs =>
      ((patSeg == pathSeg) || strStartsWith patSeg "[") && matchSegs ps qs
  | _, _ => true

/-- matchesPattern from src/middlewares/permissionMiddleware.ts lines
107 to 123: split both strings on the slash, require equal segment
counts, then accept when every position passes the segment test. -/
def matchesPattern (path pattern : String) : Bool :=
  let pathParts := jsSplit path '/'
  let patternParts := jsSplit pattern '/'
  (pathParts.length == patternParts.length) && matchSegs patternParts pathParts

/-- getRoutePermission from src/middlewares/permissionMiddleware.ts lines
88 to 105: exact key lookup first, then the first table entry in
registration order whose method part matches and whose path part matches
the pattern test. The source destructures pattern.split with two names,
so segments beyond the second are ignored; a key without a space (which
never occurs in the table and would throw in the source) is treated as
not matching. -/
def getRoutePermission (table : List (String × PermissionConfig))
    (method pathname : String) : Option PermissionConfig :=
  match List.lookup (method ++ " " ++ pathname) table with
  | some config => some config
  | none =>
      (table.find? fun e =>
        match jsSplit e.1 ' ' with
        | patternMethod :: patternPath :: _ =>
            patternMethod == method && matchesPattern pathname patternPath
        | _ => false).map Prod.snd

/-- The static routePermissions table of PermissionMiddleware, in
registration order (source lines 31 to 86). -/
def routePermissions : List (String × PermissionConfig) := [
  ("GET /api/users", { category := some "userManagement", permission := some "canViewAuditLogs" }),
  ("POST /api/users", { category := some "userManagement", permission := some "canCreateUsers" }),
  ("PUT /api/users/[id]", { category := some "userManagement", permission := some "canEditUsers" }),
  ("DELETE /api/users/[id]", { category := some "userManagement", permission := some "canDeleteUsers" }),
  ("POST /api/users/[id]/reset-password", { category := some "userManagement", permission := some "canResetPasswords" }),
  ("GET /api/users/audit-logs", { category := some "userManagement", permission := some "canViewAuditLogs" }),
  ("GET /api/inventory/products", { category := some "inventory", permission := some "canAddProducts" }),
  ("POST /api/inventory/products", { category := some "inventory", permission := some "canAddProducts" }),
  ("PUT /api/inventory/products/[id]", { category := some "inventory", permission := some "canEditProducts" }),
  ("DELETE /api/inventory/products/[id]", { category := some "inventory", permission := some "canDeleteProducts" }),
  ("POST /api/inventory/products/add-stock", { category := some "inventory", permission := some "canManageStock" }),
  ("POST /api/inventory/restock", { category := some "inventory", permission := some "canCreateRestockOrders" }),
  ("POST /api/inventory/restock/bulk", { category := some "inventory", permission := some "canBulkOperations" }),
  ("GET /api/transactions", { category := some "transactions", permission := some "canCreateTransactions" }),
  ("POST /api/transactions", { category := some "transactions", permission := some "canCreateTransactions" }),
  ("PUT /api/transactions/[id]", { category := some "transactions", permission := some "canEditTransactions" }),
  ("DELETE /api/transactions/[id]", { category := some "transactions", permission := some "canDeleteTransactions" }),
  ("GET /api/transactions/[id]/invoice", { category := some "transactions", permission := some "canCreateTransactions" }),
  ("GET /api/patients", { category := some "patients", permission := some "canAccessAllPatients" }),
  ("POST /api/patients", { category := some "patients", permission := some "canCreatePatients" }),
  ("PUT /api/patients/[id]", { category := some "patients", permission := some "canEditPatients" }),
  ("DELETE /api/patients/[id]", { category := some "patients", permission := some "canDeletePatients" }),
  ("POST /api/patients/bulk-delete", { category := some "patients", permission := some "canDeletePatients" }),
  ("GET /api/bundles", { category := some "bundles", permission := some "canCreateBundles" }),
  ("POST /api/bundles", { category := some "bundles", permission := some "canCreateBundles" }),
  ("PUT /api/bundles/[id]", { category := some "bundles", permission := some "canEditBundles" }),
  ("DELETE /api/bundles/[id]", { category := some "bundles", permission := some "canDeleteBundles" }),
  ("POST /api/bundles/calculate-pricing", { category := some "bundles", permission := some "canSetPricing" }),
  ("GET /api/bundles/stats", { category := some "bundles", permission := some "canCreateBundles" }),
  ("GET /api/reports/item-sales", { category := some "reports", permission := some "canViewFinancialReports" }),
  ("GET /api/dashboard/stats", { category := some "reports", permission := some "canViewInventoryReports" }),
  ("GET /api/admin/security-metrics", { category := some "security", permission := some "canViewSecurityLogs" }),
  ("GET /api/customers", { category := some "patients", permission := some "canAccessAllPatients" }),
  ("POST /api/customers", { category := some "patients", permission := some "canCreatePatients" }),
  ("GET /api/appointments", { category := some "appointments", permission := some "canViewAllAppointments" }),
  ("POST /api/appointments", { category := some "appointments", permission := some "canCreateAppointments" }),
  ("POST /api/auth/create-admin", { requiresRole := some ["super_admin"] })]

/-- Outcome of one principal-store read (dbConnect plus User.findById):
the user document, a null result, or a thrown error (including a
timeout of the external store). -/
inductive StoreResult where
  | found (u : User)
  | notFound
  | failure

/-- Value of checkPermission: null (continue with the request, the
downstream handler runs) or a JSON error response carrying a status and
an error code (the handler never runs). -/
inductive MiddlewareResult where
  | allow
  | response (status : Nat) (code : String)
deriving DecidableEq

/-- External consultations instrumented alongside the result: the route
registry lookup, the principal-store read, and the capability evaluator
call. The result component of checkPermission is exactly what the source
returns; this trace records which of those consultations happened, in
order. -/
inductive Effect where
  | registryLookup
  | storeRead
  | evaluatorCall
deriving DecidableEq

/-- JavaScript falsiness of a nullable header value: null and the empty
string are falsy. -/
def isFalsy : Option String → Bool
  | none => true
  | some s => s == ""

/-- JavaScript truthiness of an optional string config field. -/
def isTruthyOpt : Option String → Bool
  | none => false
  | some s => s != ""

/-- The skip list of checkPermission (source lines 131 to 134). -/
def skipPermissionCheck (pathname : String) : Bool :=
  ["/api/auth/", "/api/health"].any fun p => strStartsWith pathname p

/-- Legacy resource/action check and custom check, the tail of the try
block of checkPermission (source lines 206 to 235). -/
def legacyAndCustom (config : PermissionConfig) (user : User) (fx : List Effect) :
    MiddlewareResult × List Effect :=
  if (match config.resource, config.action with
      | some r, some a => r != "" && a != "" && !(user.canPerformAction r a)
      | _, _ => false) then
    (.response 403 "INSUFFICIENT_PERMISSIONS", fx)
  else
    match config.customCheck with
    | some f => if f user then (.allow, fx) else (.response 403 "CUSTOM_PERMISSION_DENIED", fx)
    | none => (.allow, fx)

/-- checkPermission from src/middlewares/permissionMiddleware.ts lines
126 to 242, instrumented with the effect trace. Inputs: the route table,
the principal store, the request method and pathname, and the x-user-id
and x-user-role headers (none when the header is absent). -/
def checkPermission (table : List (String × PermissionConfig))
    (store : String → StoreResult) (method pathname : String)
    (userId userRole : Option String) : MiddlewareResult × List Effect :=
  if skipPermissionCheck pathname then
    (.allow, [])
  else if isFalsy userId || isFalsy userRole then
    (.response 401 "USER_INFO_MISSING", [])
  else if userRole.getD "" == "super_admin" then
    (.allow, [])
  else
    match getRoutePermission table method pathname with
    | none => (.allow, [.registryLookup])
    | some config =>
      match store (userId.getD "") with
      | .failure => (.response 500 "PERMISSION_CHECK_ERROR", [.registryLookup, .storeRead])
      | .notFound => (.response 401 "USER_NOT_FOUND", [.registryLookup, .storeRead])
      | .found user =>
        if (match config.requiresRole with
            | some roles => !(roles.contains user.role)
            | none => false) then
          (.response 403 "INSUFFICIENT_ROLE", [.registryLookup, .storeRead])
        else if isTruthyOpt config.category && isTruthyOpt config.permission then
          (if !(PermissionService.hasPermission user (config.category.getD "")
                (config.permission.getD "")) then
            (.response 403 "INSUFFICIENT_PERMISSIONS",
              [.registryLookup, .storeRead, .evaluatorCall])
          else
            legacyAndCustom config user [.registryLookup, .storeRead, .evaluatorCall])
        else
          legacyAndCustom config user [.registryLookup, .storeRead]

/-- checkDiscountPermission of the middleware (source lines 244 to 252)
delegates to the permission service. -/
def checkDiscountPermission (user : User) (discountPercent discountAmount : ℚ)
    (kind : PermissionService.DiscountKind) : PermissionService.PermissionCheck :=
  PermissionService.checkDiscountPermission user discountPercent discountAmount kind

end PermissionMiddleware

/-- The route-pattern match as the specification words it (sections 4.3
and P5), stated independently of the implementation for comparison: the
pattern has the same number of slash-separated segments as the path, and
every segment that is not a placeholder (one starting with an opening
bracket) equals the path segment at its position literally. -/
def patternMatchesSpec (pattern path : String) : Prop :=
  (jsSplit pattern '/').length = (jsSplit path '/').length ∧
  ∀ i, i < (jsSplit pattern '/').length →
    strStartsWith ((jsSplit pattern '/').getD i "") "[" = false →
    (jsSplit pattern '/').getD i "" = (jsSplit path '/').getD i ""

instance (pattern path : String) : Decidable (patternMatchesSpec pattern path) := by
  unfold patternMatchesSpec
  infer_instance

/-- A table entry matches the fallback search of the lookup, as the
specification words it: the method part of the key equals the request
method and the pattern part matches per patternMatchesSpec. -/
def specRuleMatches (key method pathname : String) : Bool :=
  match jsSplit key ' ' with
  | ruleMethod :: rulePattern :: _ =>
      ruleMethod == method && decide (patternMatchesSpec rulePattern pathname)
  | _ => false

namespace ProductsRoute

/-- The product document fields read and written by the PUT and DELETE
handlers of the products [id] route. -/
structure Product where
  name : String
  quantity : ℚ
  costPrice : ℚ
  sellingPrice : ℚ
  reorderPoint : ℚ
  currentStock : ℚ
  totalQuantity : Option ℚ
deriving DecidableEq

/-- The JavaScript Number coercion of one present payload value: either a
number or NaN (for a non-numeric value). -/
inductive NumVal where
  | num (q : ℚ)
  | nan
deriving DecidableEq

/-- The update payload of the PUT handler as parsed from the request
body. none means the key is absent from the JSON payload; a present
value is recorded through its Number coercion. -/
structure UpdatePayload where
  name : Option String := none
  quantity : Option NumVal := none
  costPrice : Option NumVal := none
  sellingPrice : Option NumVal := none
  reorderPoint : Option NumVal := none
  currentStock : Option NumVal := none
  totalQuantity : Option NumVal := none
deriving DecidableEq

/-- The transform Number(x) || 0 applied unconditionally to the numeric
payload fields: an absent value gives NaN under Number and then 0, NaN
gives 0, the number 0 is falsy and gives 0, any other number is kept. -/
def numOr0 : Option NumVal → ℚ
  | some (.num q) => if q = 0 then 0 else q
  | some .nan => 0
  | none => 0

/-- The transform Number(x) || undefined used for totalQuantity: absent,
NaN and 0 all give undefined (which the persistence layer ignores). -/
def numOrUndef : Option NumVal → Option ℚ
  | some (.num q) => if q = 0 then none else some q
  | some .nan => none
  | none => none

/-- The transformedData object built by the PUT handler (source part_008
lines 117 to 132), restricted to the fields the claims are about: name
is carried over by the object spread only when present; the five numeric
fields are always set through Number(x) || 0. -/
structure TransformedData where
  name : Option String
  quantity : ℚ
  costPrice : ℚ
  sellingPrice : ℚ
  reorderPoint : ℚ
  currentStock : ℚ
  totalQuantity : Option ℚ
deriving DecidableEq

/-- Builds transformedData from the parsed payload. -/
def transform (payload : UpdatePayload) : TransformedData :=
  { name := payload.name
    quantity := numOr0 payload.quantity
    costPrice := numOr0 payload.costPrice
    sellingPrice := numOr0 payload.sellingPrice
    reorderPoint := numOr0 payload.reorderPoint
    currentStock := numOr0 payload.currentStock
    totalQuantity := numOrUndef payload.totalQuantity }

/-- findByIdAndUpdate with transformedData: every field present in the
update object overwrites the stored document; an undefined totalQuantity
is ignored by the mapper and the stored value kept. -/
def applyUpdate (p : Product) (t : TransformedData) : Product :=
  { name := t.name.getD p.name
    quantity := t.quantity
    costPrice := t.costPrice
    sellingPrice := t.sellingPrice
    reorderPoint := t.reorderPoint
    currentStock := t.currentStock
    totalQuantity := match t.totalQuantity with
      | some q => some q
      | none => p.totalQuantity }

/-- The audit records the PUT handler can emit, by call site: the
cost-price permission-violation activity log, the stock permission
violation activity log, the super-admin action log, and the generic
admin activity log at the end of the handler. -/
inductive AuditRecord where
  | costPriceViolation
  | stockViolation
  | superAdminAction
  | activityUpdate
deriving DecidableEq, BEq

/-- Outcomes of the underlying audit-sink writes available to one PUT
request, one per call site; ok means the external write succeeds, error
means it fails or times out. -/
structure SinkOutcomes where
  costPriceWrite : Except String Unit
  stockWrite : Except String Unit
  superAdminWrite : Except String Unit
  activityWrite : Except String Unit

/-- logSuperAdminAction from src/middlewares/superAdminGuard.ts lines 241
to 267: the whole body sits in a try block whose catch swallows every
error, so the call always returns normally whatever the sink does. -/
def logSuperAdminAction (_sinkWrite : Except String Unit) : Except String Unit :=
  Except.ok ()

/-- Modelled from the spec: the AdminActivityLog.logActivity static is
not under src/ (src only holds callers and an unrelated schema of that
collection). Section 4.6: the audit write is fire-and-forget, a failure
to record never blocks or fails the enforced operation, it is logged
locally and dropped. The call therefore returns normally whatever the
underlying sink write does. -/
def logActivity (_sinkWrite : Except String Unit) : Except String Unit :=
  Except.ok ()

/-- Result of one PUT request: the HTTP status, the document as persisted
by findByIdAndUpdate (none when no update was performed), and the audit
records emitted, in order. -/
structure PutOutcome where
  status : Nat
  persisted : Option Product
  audits : List AuditRecord
deriving DecidableEq

/-- The PUT handler of the products [id] route (source part_008 lines 54
to 272), for an authenticated user: the canEditProducts gate, the
payload transform, the cost-price and stock sensitive-field guards with
their audit logs, the persistence step, the super-admin action log and
the final admin activity log. Audit calls return through the Except so
that a raised audit error would surface in the catch of the handler as
a 500 response. -/
def PUT (user : User) (payload : UpdatePayload) (existing : Option Product)
    (sink : SinkOutcomes) : PutOutcome :=
  if !(PermissionService.hasPermission user "inventory" "canEditProducts") then
    { status := 403, persisted := none, audits := [] }
  else
    match existing with
    | none => { status := 404, persisted := none, audits := [] }
    | some existingProduct =>
      let t0 := transform payload
      let costGuardFires := payload.costPrice.isSome
        && decide (existingProduct.costPrice ≠ t0.costPrice)
        && !(PermissionService.hasPermission user "inventory" "canEditCostPrices")
      let t1 := if costGuardFires then
          { t0 with costPrice := existingProduct.costPrice } else t0
      let audits1 : List AuditRecord :=
        if costGuardFires then [.costPriceViolation] else []
      let r1 := if costGuardFires then logActivity sink.costPriceWrite else Except.ok ()
      match r1 with
      | .error _ => { status := 500, persisted := none, audits := audits1 }
      | .ok _ =>
        let stockGuardFires := payload.currentStock.isSome
          && decide (existingProduct.currentStock ≠ t1.currentStock)
          && !(PermissionService.hasPermission user "inventory" "canManageStock")
        let t2 := if stockGuardFires then
            { t1 with currentStock := existingProduct.currentStock,
                      quantity := existingProduct.quantity,
                      totalQuantity := existingProduct.totalQuantity } else t1
        let audits2 := audits1 ++ (if stockGuardFires then [.stockViolation] else [])
        let r2 := if stockGuardFires then logActivity sink.stockWrite else Except.ok ()
        match r2 with
        | .error _ => { status := 500, persisted := none, audits := audits2 }
        | .ok _ =>
          let updated := applyUpdate existingProduct t2
          let superLog := PermissionService.hasPermission user "inventory" "canEditCostPrices"
          let audits3 := audits2 ++ (if superLog then [.superAdminAction] else [])
          let r3 := if superLog then logSuperAdminAction sink.superAdminWrite else Except.ok ()
          match r3 with
          | .error _ => { status := 500, persisted := some updated, audits := audits3 }
          | .ok _ =>
            let actLog := user.role == "admin" || user.role == "super_admin"
            let audits4 := audits3 ++ (if actLog then [.activityUpdate] else [])
            let r4 := if actLog then logActivity sink.activityWrite else Except.ok ()
            match r4 with
            | .error _ => { status := 500, persisted := some updated, audits := audits4 }
            | .ok _ => { status := 200, persisted := some updated, audits := audits4 }

/-- The permission gate of the DELETE handler of the products [id] route
(source part_008 lines 290 to 304): the roles super_admin and admin pass
outright, otherwise an explicit canAddProducts grant is required (used
by the source as a proxy for product management). -/
def canDeleteProducts (user : User) : Bool :=
  user.role == "super_admin" || user.role == "admin"
    || PermissionService.hasPermission user "inventory" "canAddProducts"

end ProductsRoute

/-! Concrete fixtures used by the witness theorems. -/

/-- A discount authorization with a 10 percent and 50 amount cap on bill
discounts, no unlimited override. -/
def billCapped : DiscountAuthorization := ⟨false, true, 10, 50, false⟩

/-- A staff principal with no explicit grants. -/
def staffEmptyUser : User := ⟨"staff", [], billCapped, fun _ _ => false⟩

/-- An admin principal with empty featurePermissions. -/
def adminEmptyUser : User := ⟨"admin", [], ⟨false, false, 0, 0, false⟩, fun _ _ => false⟩

/-- A staff principal holding exactly the base edit capability
inventory.canEditProducts. -/
def editOnlyUser : User :=
  ⟨"staff", [("inventory", [("canEditProducts", .b true)])], billCapped, fun _ _ => false⟩

/-- A principal store where every id resolves to no user. -/
def emptyStore : String → PermissionMiddleware.StoreResult := fun _ => .notFound

/-- A principal store where every read throws (or times out). -/
def failingStore : String → PermissionMiddleware.StoreResult := fun _ => .failure

/-- A stored product fixture. -/
def productFixture : ProductsRoute.Product := ⟨"Old", 3, 5, 20, 2, 7, some 9⟩

/-- Audit sink outcomes where every external write succeeds. -/
def sinkAllOk : ProductsRoute.SinkOutcomes := ⟨.ok (), .ok (), .ok (), .ok ()⟩

/-- Audit sink outcomes where every external write fails. -/
def sinkAllFail : ProductsRoute.SinkOutcomes :=
  ⟨.error "w1", .error "w2", .error "w3", .error "w4"⟩

/-! Claim theorems. -/

/-- C1: for every request off the skip list carrying both identity
headers with values, a role header equal to super_admin makes
checkPermission return null (allow) with no registry lookup, no
evaluator call and no principal-store read, for every route table and
every store. -/
theorem c1_super_admin_short_circuit
    (table : List (String × PermissionMiddleware.PermissionConfig))
    (store : String → PermissionMiddleware.StoreResult)
    (method pathname uid : String)
    (hskip : PermissionMiddleware.skipPermissionCheck pathname = false)
    (hid : uid ≠ "") :
    PermissionMiddleware.checkPermission table store method pathname
      (some uid) (some "super_admin") = (.allow, []) := by
  simp [PermissionMiddleware.checkPermission, PermissionMiddleware.isFalsy, hskip, hid]

/-- C1 witness: a super_admin request to a registered route, with the
full source route table and an empty store. -/
theorem c1_super_admin_short_circuit_witness :
    PermissionMiddleware.checkPermission PermissionMiddleware.routePermissions emptyStore
      "GET" "/api/users" (some "u1") (some "super_admin") = (.allow, []) :=
  c1_super_admin_short_circuit PermissionMiddleware.routePermissions emptyStore
    "GET" "/api/users" "u1" (by decide) (by decide)

/-- C4: for every request off the skip list by an authenticated
principal whose role header is neither empty nor super_admin, a route
lookup that finds no rule makes checkPermission return null (allow)
after only the registry lookup: no evaluator call, no principal-store
read. -/
theorem c4_no_rule_allows
    (table : List (String × PermissionMiddleware.PermissionConfig))
    (store : String → PermissionMiddleware.StoreResult)
    (method pathname uid role : String)
    (hskip : PermissionMiddleware.skipPermissionCheck pathname = false)
    (hid : uid ≠ "") (hrole0 : role ≠ "") (hrole : role ≠ "super_admin")
    (hlookup : PermissionMiddleware.getRoutePermission table method pathname = none) :
    PermissionMiddleware.checkPermission table store method pathname
      (some uid) (some role) = (.allow, [.registryLookup]) := by
  simp [PermissionMiddleware.checkPermission, PermissionMiddleware.isFalsy,
    hskip, hid, hrole0, hrole, hlookup]

/-- C4 witness: a staff request to an unregistered route of the full
source route table. -/
theorem c4_no_rule_allows_witness :
    PermissionMiddleware.checkPermission PermissionMiddleware.routePermissions emptyStore
      "GET" "/api/unregistered" (some "u1") (some "staff") = (.allow, [.registryLookup]) :=
  c4_no_rule_allows PermissionMiddleware.routePermissions emptyStore
    "GET" "/api/unregistered" "u1" "staff" (by decide) (by decide) (by decide) (by decide) (by rfl)

/-- C6 counterexample: an inbound request on the skip list with neither
identity header is allowed through, not failed with the 401
USER_INFO_MISSING response the claim requires for every inbound
operation with an absent identity reference. -/
theorem c6_skip_list_contradicts_claim :
    PermissionMiddleware.checkPermission PermissionMiddleware.routePermissions emptyStore
      "GET" "/api/health" none none = (.allow, [])
    ∧ (PermissionMiddleware.MiddlewareResult.allow
        ≠ PermissionMiddleware.MiddlewareResult.response 401 "USER_INFO_MISSING") :=
  ⟨by decide, by decide⟩

/-- C6 (amended with: not on the authentication skip list): for every
request off the skip list, a missing (or empty) x-user-id or x-user-role
header makes checkPermission fail with the 401 USER_INFO_MISSING
response before any registry lookup, evaluator call or principal-store
read, and the downstream handler never runs. -/
theorem c6_missing_identity_unauthenticated
    (table : List (String × PermissionMiddleware.PermissionConfig))
    (store : String → PermissionMiddleware.StoreResult)
    (method pathname : String) (userId userRole : Option String)
    (hskip : PermissionMiddleware.skipPermissionCheck pathname = false)
    (hmiss : (PermissionMiddleware.isFalsy userId || PermissionMiddleware.isFalsy userRole) = true) :
    PermissionMiddleware.checkPermission table store method pathname userId userRole
      = (.response 401 "USER_INFO_MISSING", [])
    ∧ (PermissionMiddleware.checkPermission table store method pathname userId userRole).1
        ≠ .allow := by
  have h : PermissionMiddleware.checkPermission table store method pathname userId userRole
      = (.response 401 "USER_INFO_MISSING", []) := by
    simp [PermissionMiddleware.checkPermission, hskip, hmiss]
  exact ⟨h, by rw [h]; simp⟩

/-- C6 witness: a request off the skip list with an absent x-user-id
header. -/
theorem c6_missing_identity_unauthenticated_witness :
    PermissionMiddleware.checkPermission PermissionMiddleware.routePermissions emptyStore
      "GET" "/api/users" none (some "staff")
      = (.response 401 "USER_INFO_MISSING", [])
    ∧ (PermissionMiddleware.checkPermission PermissionMiddleware.routePermissions emptyStore
        "GET" "/api/users" none (some "staff")).1 ≠ .allow :=
  c6_missing_identity_unauthenticated PermissionMiddleware.routePermissions emptyStore
    "GET" "/api/users" none (some "staff") (by decide) (by decide)

/-- C7: for every request that reaches the principal-store read (off the
skip list, both identity headers valued, role not super_admin, a route
rule found), a store read that throws or times out makes checkPermission
return the 500 PERMISSION_CHECK_ERROR response: the request never
proceeds to the downstream handler, so enforcement fails closed. -/
theorem c7_store_failure_fails_closed
    (table : List (String × PermissionMiddleware.PermissionConfig))
    (store : String → PermissionMiddleware.StoreResult)
    (method pathname uid role : String)
    (hskip : PermissionMiddleware.skipPermissionCheck pathname = false)
    (hid : uid ≠ "") (hrole0 : role ≠ "") (hrole : role ≠ "super_admin")
    (hcfg : (PermissionMiddleware.getRoutePermission table method pathname).isSome = true)
    (hfail : store uid = .failure) :
    PermissionMiddleware.checkPermission table store method pathname (some uid) (some role)
      = (.response 500 "PERMISSION_CHECK_ERROR", [.registryLookup, .storeRead])
    ∧ (PermissionMiddleware.checkPermission table store method pathname
        (some uid) (some role)).1 ≠ .allow := by
  obtain ⟨config, hsome⟩ := Option.isSome_iff_exists.mp hcfg
  have h : PermissionMiddleware.checkPermission table store method pathname
      (some uid) (some role)
      = (.response 500 "PERMISSION_CHECK_ERROR", [.registryLookup, .storeRead]) := by
    simp [PermissionMiddleware.checkPermission, PermissionMiddleware.isFalsy,
      hskip, hid, hrole0, hrole, hsome, hfail]
  exact ⟨h, by rw [h]; simp⟩

/-- C7 witness: a staff request to a registered route whose store read
fails. -/
theorem c7_store_failure_fails_closed_witness :
    PermissionMiddleware.checkPermission PermissionMiddleware.routePermissions failingStore
      "GET" "/api/users" (some "u1") (some "staff")
      = (.response 500 "PERMISSION_CHECK_ERROR", [.registryLookup, .storeRead])
    ∧ (PermissionMiddleware.checkPermission PermissionMiddleware.routePermissions failingStore
        "GET" "/api/users" (some "u1") (some "staff")).1 ≠ .allow :=
  c7_store_failure_fails_closed PermissionMiddleware.routePermissions failingStore
    "GET" "/api/users" "u1" "staff" (by decide) (by decide) (by decide) (by decide)
    (by rfl) (by rfl)

/-- C9: for every principal with a 10 percent cap, a 50 amount cap, the
bill gate granted, no unlimited override and a role other than
super_admin: a bill discount of 10 percent and 50 is allowed, 10.01
percent is denied with the percent-bound reason, and an amount of 50.01
is denied with the amount-bound reason. -/
theorem c9_discount_bounds (u : User)
    (hrole : u.role ≠ "super_admin")
    (hunlim : u.discountAuthorization.unlimitedDiscounts = false)
    (hgate : u.discountAuthorization.canApplyBillDiscounts = true)
    (hpct : u.discountAuthorization.maxDiscountPercent = 10)
    (hamt : u.discountAuthorization.maxDiscountAmount = 50) :
    PermissionMiddleware.checkDiscountPermission u 10 50 .bill = { allowed := true }
    ∧ PermissionMiddleware.checkDiscountPermission u 10.01 50 .bill
        = { allowed := false, reason := some PermissionService.percentBoundReason }
    ∧ PermissionMiddleware.checkDiscountPermission u 5 50.01 .bill
        = { allowed := false, reason := some PermissionService.amountBoundReason } := by
  unfold PermissionMiddleware.checkDiscountPermission PermissionService.checkDiscountPermission
  refine ⟨?_, ?_, ?_⟩ <;> simp [hrole, hunlim, hgate, hpct, hamt] <;> norm_num

/-- Helper for C5: on lists of equal length, the recursive segment test
of the implementation agrees with the positionwise condition of the
specification. -/
theorem matchSegs_iff (ps qs : List String) (h : ps.length = qs.length) :
    PermissionMiddleware.matchSegs ps qs = true ↔
      ∀ i, i < ps.length → strStartsWith (ps.getD i "") "[" = false →
        ps.getD i "" = qs.getD i "" := by
  induction ps generalizing qs with
  | nil => simp [PermissionMiddleware.matchSegs]
  | cons p ps ih =>
    cases qs with
    | nil => simp at h
    | cons q qs =>
      have hlen : ps.length = qs.length := by simpa using h
      constructor
      · intro hm i hi hstart
        simp only [PermissionMiddleware.matchSegs, Bool.and_eq_true, Bool.or_eq_true,
          beq_iff_eq] at hm
        obtain ⟨h1, h2⟩ := hm
        cases i with
        | zero =>
          simp only [List.getD_cons_zero] at hstart ⊢
          rcases h1 with h1 | h1
          · exact h1
          · rw [h1] at hstart; cases hstart
        | succ i =>
          simp only [List.getD_cons_succ] at hstart ⊢
          exact (ih qs hlen).mp h2 i (by simpa using hi) hstart
      · intro hall
        simp only [PermissionMiddleware.matchSegs, Bool.and_eq_true, Bool.or_eq_true,
          beq_iff_eq]
        refine ⟨?_, (ih qs hlen).mpr ?_⟩
        · by_cases hb : strStartsWith p "[" = true
          · right; exact hb
          · left
            have hb0 : strStartsWith p "[" = false := by
              cases hsw : strStartsWith p "[" with
              | true => exact absurd hsw hb
              | false => rfl
            have := hall 0 (by simp) (by simpa using hb0)
            simpa using this
        · intro i hi hstart
          have := hall (i + 1) (by simpa using Nat.succ_lt_succ hi)
            (by simpa using hstart)
          simpa using this

/-- Helper for C5: the implemented pattern test agrees with the
specification wording. -/
theorem matchesPattern_iff (path pattern : String) :
    PermissionMiddleware.matchesPattern path pattern = true ↔
      patternMatchesSpec pattern path := by
  unfold PermissionMiddleware.matchesPattern patternMatchesSpec
  simp only [Bool.and_eq_true, beq_iff_eq]
  constructor
  · rintro ⟨hlen, hm⟩
    have hlen2 : (jsSplit pattern '/').length = (jsSplit path '/').length := hlen.symm
    exact ⟨hlen2, (matchSegs_iff _ _ hlen2).mp hm⟩
  · rintro ⟨hlen, hall⟩
    exact ⟨hlen.symm, (matchSegs_iff _ _ hlen).mpr hall⟩

/-- Helper for C5: Boolean form of matchesPattern_iff. -/
theorem matchesPattern_eq_decide (path pattern : String) :
    PermissionMiddleware.matchesPattern path pattern
      = decide (patternMatchesSpec pattern path) := by
  by_cases h : patternMatchesSpec pattern path
  · rw [decide_eq_true h, (matchesPattern_iff path pattern).mpr h]
  · rw [decide_eq_false h]
    cases hb : PermissionMiddleware.matchesPattern path pattern with
    | false => rfl
    | true => exact absurd ((matchesPattern_iff path pattern).mp hb) h

/-- Helper for C5: find? only depends on the predicate pointwise. -/
theorem find_eq_of_pred_eq {α : Type} (p q : α → Bool) (h : ∀ a, p a = q a)
    (l : List α) : l.find? p = l.find? q := by
  induction l with
  | nil => rfl
  | cons a l ih =>
    rw [List.find?_cons, List.find?_cons, h a]
    cases q a <;> simp [ih]

/-- Helper for C5: the fallback predicate of the implementation equals
the specification-worded rule match on every table entry. -/
theorem fallbackPred_eq (method pathname : String)
    (e : String × PermissionMiddleware.PermissionConfig) :
    (match jsSplit e.1 ' ' with
     | patternMethod :: patternPath :: _ =>
         patternMethod == method && PermissionMiddleware.matchesPattern pathname patternPath
     | _ => false)
    = specRuleMatches e.1 method pathname := by
  unfold specRuleMatches
  cases jsSplit e.1 ' ' with
  | nil => rfl
  | cons a rest =>
    cases rest with
    | nil => rfl
    | cons b rest2 => simp [matchesPattern_eq_decide]

/-- C5: the route lookup returns the rule under the exact key
method-space-path when present, and otherwise the first rule in
registration order matching the specification wording of the pattern
test (equal segment count, literal equality on every non-placeholder
segment, a placeholder segment starting with an opening bracket matching
any single segment); the pattern /products/[id] matches /products/abc123
but neither /products/abc123/stock nor /products. -/
theorem c5_route_lookup_matches_spec :
    (∀ path pattern, PermissionMiddleware.matchesPattern path pattern = true ↔
        patternMatchesSpec pattern path)
    ∧ (∀ (table : List (String × PermissionMiddleware.PermissionConfig)) method pathname config,
        List.lookup (method ++ " " ++ pathname) table = some config →
        PermissionMiddleware.getRoutePermission table method pathname = some config)
    ∧ (∀ (table : List (String × PermissionMiddleware.PermissionConfig)) method pathname,
        List.lookup (method ++ " " ++ pathname) table = none →
        PermissionMiddleware.getRoutePermission table method pathname
          = (table.find? fun e => specRuleMatches e.1 method pathname).map Prod.snd)
    ∧ PermissionMiddleware.matchesPattern "/products/abc123" "/products/[id]" = true
    ∧ PermissionMiddleware.matchesPattern "/products/abc123/stock" "/products/[id]" = false
    ∧ PermissionMiddleware.matchesPattern "/products" "/products/[id]" = false := by
  refine ⟨matchesPattern_iff, ?_, ?_, by decide, by decide, by decide⟩
  · intro table method pathname config h
    unfold PermissionMiddleware.getRoutePermission
    rw [h]
  · intro table method pathname h
    unfold PermissionMiddleware.getRoutePermission
    rw [h]
    exact congrArg (Option.map Prod.snd)
      (find_eq_of_pred_eq _ _ (fun e => fallbackPred_eq method pathname e) table)

/-- C5 witness: on the full source route table, a request with no exact
key falls through to the specification-worded first-match search. -/
theorem c5_route_lookup_matches_spec_witness :
    PermissionMiddleware.getRoutePermission PermissionMiddleware.routePermissions
      "PUT" "/api/users/42"
      = (PermissionMiddleware.routePermissions.find? fun e =>
          specRuleMatches e.1 "PUT" "/api/users/42").map Prod.snd :=
  c5_route_lookup_matches_spec.2.2.1 PermissionMiddleware.routePermissions
    "PUT" "/api/users/42" (by rfl)

/-- C2 counterexample: a principal with role admin and empty
featurePermissions is denied every capability by the evaluator, yet
passes the permission gate of the product DELETE handler on role alone,
refuting the claim that role alone never suffices to pass a
capability-gated operation such as product deletion. -/
theorem c2_admin_role_deletes_without_capability :
    PermissionService.hasPermission adminEmptyUser "inventory" "canEditCostPrices" = false
    ∧ PermissionService.hasPermission adminEmptyUser "inventory" "canAddProducts" = false
    ∧ ProductsRoute.canDeleteProducts adminEmptyUser = true :=
  ⟨by decide, by decide, by decide⟩

/-- C2 (amended with: the product-deletion handler explicitly accepts
the roles admin and super_admin without any capability, so role alone
not sufficing holds only for manager and staff): the evaluator denies
every capability not explicitly granted to a non-super_admin principal,
in particular an admin with empty featurePermissions is denied
inventory.canEditCostPrices, and a manager or staff principal without
the canAddProducts grant fails the product-deletion gate. -/
theorem c2_no_implicit_grant :
    (∀ (u : User) (category capability : String),
      u.role ≠ "super_admin" →
      capTruthy u.featurePermissions category capability = false →
      PermissionService.hasPermission u category capability = false)
    ∧ PermissionService.hasPermission adminEmptyUser "inventory" "canEditCostPrices" = false
    ∧ (∀ u : User, u.role = "manager" ∨ u.role = "staff" →
        capTruthy u.featurePermissions "inventory" "canAddProducts" = false →
        ProductsRoute.canDeleteProducts u = false) := by
  refine ⟨?_, by decide, ?_⟩
  · intro u category capability hrole hcap
    simp [PermissionService.hasPermission, hrole, hcap]
  · intro u hr hcap
    unfold ProductsRoute.canDeleteProducts PermissionService.hasPermission
    rcases hr with h | h <;> simp [h, hcap]

/-- C2 witness: the staff principal with no grants is denied
inventory.canEditCostPrices and fails the deletion gate. -/
theorem c2_no_implicit_grant_witness :
    PermissionService.hasPermission staffEmptyUser "inventory" "canEditCostPrices" = false
    ∧ ProductsRoute.canDeleteProducts staffEmptyUser = false :=
  ⟨c2_no_implicit_grant.1 staffEmptyUser "inventory" "canEditCostPrices"
      (by decide) (by decide),
    c2_no_implicit_grant.2.2 staffEmptyUser (Or.inr (by rfl)) (by decide)⟩

/-- Helper: the Number(x) || 0 transform is the identity on a present
numeric payload value. -/
theorem numOr0_num (q : ℚ) : ProductsRoute.numOr0 (some (.num q)) = q := by
  unfold ProductsRoute.numOr0
  by_cases h : q = 0 <;> simp [h]

/-- C3: for every product update by a principal holding
inventory.canEditProducts but lacking inventory.canEditCostPrices, whose
payload carries a numeric costPrice different from the stored value
together with a name and the other numeric fields (currentStock
unchanged): the update succeeds with status 200, the persisted document
applies the name and the other numeric payload fields and keeps the
stored costPrice, and exactly one cost-price violation audit record is
emitted; the operation is never rejected for the gated field. -/
theorem c3_cost_price_reverted_rest_applied
    (u : User) (p : ProductsRoute.Product) (sink : ProductsRoute.SinkOutcomes)
    (n : String) (c q s r : ℚ)
    (hEdit : PermissionService.hasPermission u "inventory" "canEditProducts" = true)
    (hCost : PermissionService.hasPermission u "inventory" "canEditCostPrices" = false)
    (hne : c ≠ p.costPrice) :
    (ProductsRoute.PUT u
        ⟨some n, some (.num q), some (.num c), some (.num s), some (.num r),
          some (.num p.currentStock), none⟩ (some p) sink).status = 200
    ∧ (ProductsRoute.PUT u
        ⟨some n, some (.num q), some (.num c), some (.num s), some (.num r),
          some (.num p.currentStock), none⟩ (some p) sink).persisted
        = some ⟨n, q, p.costPrice, s, r, p.currentStock, p.totalQuantity⟩
    ∧ (ProductsRoute.PUT u
        ⟨some n, some (.num q), some (.num c), some (.num s), some (.num r),
          some (.num p.currentStock), none⟩ (some p) sink).audits.count
        .costPriceViolation = 1 := by
  have hne2 : p.costPrice ≠ c := fun h => hne h.symm
  unfold ProductsRoute.PUT
  simp only [hEdit, ProductsRoute.transform, numOr0_num, Bool.not_true, Bool.false_eq_true,
    if_false, ProductsRoute.logActivity, ProductsRoute.logSuperAdminAction, hCost,
    Option.isSome_some, decide_eq_true hne2, Bool.not_false, Bool.and_self, Bool.true_and,
    Bool.and_true, if_true, ne_eq, not_true_eq_false, Bool.false_and]
  simp only [ProductsRoute.numOrUndef, ProductsRoute.applyUpdate, ite_self]
  cases hAct : (u.role == "admin" || u.role == "super_admin") <;>
    simp [ProductsRoute.applyUpdate, Option.getD, List.count_cons, List.count_append,
      List.count_nil, hAct] <;> decide

/-- C3 witness: the edit-only staff principal updating the product
fixture with a changed cost price. -/
theorem c3_cost_price_reverted_rest_applied_witness :
    (ProductsRoute.PUT editOnlyUser
        ⟨some "new", some (.num 4), some (.num 999), some (.num 25), some (.num 2),
          some (.num 7), none⟩ (some productFixture) sinkAllOk).status = 200
    ∧ (ProductsRoute.PUT editOnlyUser
        ⟨some "new", some (.num 4), some (.num 999), some (.num 25), some (.num 2),
          some (.num 7), none⟩ (some productFixture) sinkAllOk).persisted
        = some ⟨"new", 4, 5, 25, 2, 7, some 9⟩
    ∧ (ProductsRoute.PUT editOnlyUser
        ⟨some "new", some (.num 4), some (.num 999), some (.num 25), some (.num 2),
          some (.num 7), none⟩ (some productFixture) sinkAllOk).audits.count
        .costPriceViolation = 1 :=
  c3_cost_price_reverted_rest_applied editOnlyUser productFixture sinkAllOk
    "new" 999 4 25 2 (by decide) (by decide) (by decide)

/-- C8: the outcome of the PUT handler (status, persisted document and
emitted audit records) is identical for any two behaviors of the
underlying audit sink, because logSuperAdminAction catches its own
errors in the source and the activity logger is fire-and-forget per the
specification: an audit write failure never blocks or fails the
enforced operation. -/
theorem c8_audit_failure_never_blocks
    (u : User) (payload : ProductsRoute.UpdatePayload)
    (existing : Option ProductsRoute.Product)
    (sink1 sink2 : ProductsRoute.SinkOutcomes) :
    ProductsRoute.PUT u payload existing sink1
      = ProductsRoute.PUT u payload existing sink2 := by
  unfold ProductsRoute.PUT
  simp [ProductsRoute.logActivity, ProductsRoute.logSuperAdminAction]

/-- C10 counterexample: a payload whose costPrice is present but
non-numeric is coerced to 0, yet the cost-price guard is not skipped
for it: for the edit-only principal and the stored value 5, the field
is reverted to 5 (not persisted as 0) and a violation audit record is
emitted, refuting the claim for present non-numeric fields. -/
theorem c10_present_non_numeric_not_skipped :
    (ProductsRoute.PUT editOnlyUser { costPrice := some .nan } (some productFixture)
        sinkAllOk).persisted = some ⟨"Old", 0, 5, 0, 0, 0, some 9⟩
    ∧ (ProductsRoute.PUT editOnlyUser { costPrice := some .nan } (some productFixture)
        sinkAllOk).audits = [.costPriceViolation] :=
  ⟨by decide, by decide⟩

/-- C10 (amended with: restricted to fields absent from the payload;
a present non-numeric field is also coerced to 0 but the guards do run
for it): for every product update by a principal holding
inventory.canEditProducts, each of quantity, costPrice, sellingPrice,
reorderPoint and currentStock that is absent from the payload is
coerced to 0 by Number(x) || 0 and persisted as 0, and the cost-price
and stock guards are skipped for absent fields because each guard
requires the raw payload field to be defined — so a payload omitting
costPrice zeroes the stored cost price. -/
theorem c10_absent_numeric_fields_zeroed
    (u : User) (p : ProductsRoute.Product) (sink : ProductsRoute.SinkOutcomes)
    (payload : ProductsRoute.UpdatePayload)
    (hEdit : PermissionService.hasPermission u "inventory" "canEditProducts" = true)
    (h1 : payload.quantity = none) (h2 : payload.costPrice = none)
    (h3 : payload.sellingPrice = none) (h4 : payload.reorderPoint = none)
    (h5 : payload.currentStock = none) :
    (ProductsRoute.PUT u payload (some p) sink).status = 200
    ∧ (∃ d, (ProductsRoute.PUT u payload (some p) sink).persisted = some d
        ∧ d.quantity = 0 ∧ d.costPrice = 0 ∧ d.sellingPrice = 0
        ∧ d.reorderPoint = 0 ∧ d.currentStock = 0)
    ∧ (ProductsRoute.PUT u payload (some p) sink).audits.count .costPriceViolation = 0
    ∧ (ProductsRoute.PUT u payload (some p) sink).audits.count .stockViolation = 0 := by
  unfold ProductsRoute.PUT
  simp only [hEdit, ProductsRoute.transform, h1, h2, h3, h4, h5, ProductsRoute.numOr0,
    Option.isSome_none, Bool.false_and, Bool.not_true, Bool.false_eq_true, if_false,
    ProductsRoute.logActivity, ProductsRoute.logSuperAdminAction, ite_self]
  cases hSup : PermissionService.hasPermission u "inventory" "canEditCostPrices" <;>
    cases hAct : (u.role == "admin" || u.role == "super_admin") <;>
      simp [ProductsRoute.applyUpdate, List.count_append, hSup, hAct] <;> decide

/-- C10 witness: the edit-only staff principal with a payload carrying
only a name: every numeric field is persisted as 0 and no violation
audit record is emitted. -/
theorem c10_absent_numeric_fields_zeroed_witness :
    (ProductsRoute.PUT editOnlyUser { name := some "new" } (some productFixture)
        sinkAllOk).status = 200
    ∧ (∃ d, (ProductsRoute.PUT editOnlyUser { name := some "new" } (some productFixture)
          sinkAllOk).persisted = some d
        ∧ d.quantity = 0 ∧ d.costPrice = 0 ∧ d.sellingPrice = 0
        ∧ d.reorderPoint = 0 ∧ d.currentStock = 0)
    ∧ (ProductsRoute.PUT editOnlyUser { name := some "new" } (some productFixture)
        sinkAllOk).audits.count .costPriceViolation = 0
    ∧ (ProductsRoute.PUT editOnlyUser { name := some "new" } (some productFixture)
        sinkAllOk).audits.count .stockViolation = 0 :=
  c10_absent_numeric_fields_zeroed editOnlyUser productFixture sinkAllOk
    { name := some "new" } (by decide) (by rfl) (by rfl) (by rfl) (by rfl) (by rfl)

/-- C9 witness: the capped staff principal at the three claimed
inputs. -/
theorem c9_discount_bounds_witness :
    PermissionMiddleware.checkDiscountPermission staffEmptyUser 10 50 .bill = { allowed := true }
    ∧ PermissionMiddleware.checkDiscountPermission staffEmptyUser 10.01 50 .bill
        = { allowed := false, reason := some PermissionService.percentBoundReason }
    ∧ PermissionMiddleware.checkDiscountPermission staffEmptyUser 5 50.01 .bill
        = { allowed := false, reason := some PermissionService.amountBoundReason } :=
  c9_discount_bounds staffEmptyUser (by decide) (by decide) (by decide) (by decide) (by decide)

end L2L
